import Mathlib

/-!
# Health-Analyzer: verification of the metric-evaluation core

Shallow embedding of `app.py` of the Health-Analyzer repository.
Python floats are modelled as rationals (`ℚ`): every threshold in the
source (12, 16, 70, 125, 90, 60, 140, 240, 200, 18.5, 24.9) is exactly
representable as a double, so the comparison semantics agree on all the
boundary values the claims are about.  Python ints are modelled as `ℤ`.
The request/session/database plumbing is modelled as explicit arguments
(the raw form fields, the current session user, the list of stored rows).
-/

namespace HealthAnalyzer

/-- Outcome of fetching one form field and feeding it to `float(...)` /
`int(...)` inside the `try:` blocks of `index` (app.py lines 200–337):
the field can be missing (`request.form.get(...) or None` gave `None`,
so the conversion raises `TypeError`), present but malformed (the
conversion raises `ValueError`), or parse to a numeric value. -/
inductive Raw (α : Type) where
  | missing : Raw α
  | malformed : Raw α
  | val : α → Raw α
deriving DecidableEq

/-- The numeric value a raw field yields, `none` when the conversion in
the `try:` block raises. -/
def Raw.parse {α : Type} : Raw α → Option α
  | .missing => none
  | .malformed => none
  | .val a => some a

/-- The seven raw form fields read at app.py lines 201–207 (blood
pressure contributes two). -/
structure MetricInput where
  hb : Raw ℚ
  sugar : Raw ℚ
  bp_sys : Raw ℤ
  bp_dia : Raw ℤ
  chol : Raw ℚ
  height : Raw ℚ
  weight : Raw ℚ
deriving DecidableEq

/-- One entry of the `result` dict: a status label and an advisory
string. -/
structure Classification where
  status : String
  advice : String
deriving DecidableEq

/-- Hemoglobin block, app.py lines 209–232: parsed value (or `None`)
and the classification. -/
def evalHemoglobin (r : Raw ℚ) : Option ℚ × Classification :=
  match r.parse with
  | some hb =>
      if hb < 12 then
        (some hb, ⟨"Low",
          "Hemoglobin appears lower than the normal range. Consult a doctor if symptoms persist."⟩)
      else if hb > 16 then
        (some hb, ⟨"High",
          "Hemoglobin appears higher than the normal range. A medical check-up is recommended."⟩)
      else
        (some hb, ⟨"Normal", "Hemoglobin is within the normal range."⟩)
  | none => (none, ⟨"Error", "Please enter a valid Hemoglobin value."⟩)

/-- Fasting-sugar block, app.py lines 234–257. -/
def evalSugar (r : Raw ℚ) : Option ℚ × Classification :=
  match r.parse with
  | some sugar =>
      if sugar < 70 then
        (some sugar, ⟨"Low", "Low fasting sugar may cause dizziness or weakness."⟩)
      else if sugar > 125 then
        (some sugar, ⟨"High",
          "Fasting sugar appears high and may indicate diabetes. Consult a doctor."⟩)
      else
        (some sugar, ⟨"Normal", "Fasting sugar is within the normal range."⟩)
  | none => (none, ⟨"Error", "Please enter a valid sugar value."⟩)

/-- Blood-pressure block, app.py lines 259–283.  `int(bp_sys_raw)` runs
first; if either conversion raises, the handler sets
`bp_sys = bp_dia = None`, so both values are absent unless both parse. -/
def evalBP (rs rd : Raw ℤ) : Option ℤ × Option ℤ × Classification :=
  match rs.parse, rd.parse with
  | some bp_sys, some bp_dia =>
      if bp_sys < 90 ∨ bp_dia < 60 then
        (some bp_sys, some bp_dia,
          ⟨"Low", "Blood pressure is low. Hydration and rest may help."⟩)
      else if bp_sys > 140 ∨ bp_dia > 90 then
        (some bp_sys, some bp_dia,
          ⟨"High",
           "Blood pressure is high and may pose risks. A medical consultation is recommended."⟩)
      else
        (some bp_sys, some bp_dia,
          ⟨"Normal", "Blood pressure is within the normal range."⟩)
  | _, _ => (none, none, ⟨"Error", "Please enter valid BP values."⟩)

/-- Cholesterol block, app.py lines 285–308. -/
def evalCholesterol (r : Raw ℚ) : Option ℚ × Classification :=
  match r.parse with
  | some chol =>
      if chol > 240 then
        (some chol, ⟨"High", "Cholesterol is high and may increase heart disease risk."⟩)
      else if chol > 200 then
        (some chol, ⟨"Borderline",
          "Cholesterol is borderline high. Healthy diet and lifestyle changes may help."⟩)
      else
        (some chol, ⟨"Normal", "Cholesterol is within a healthy range."⟩)
  | none => (none, ⟨"Error", "Please enter a valid cholesterol value."⟩)

/-- Python's `f"{x:.1f}"` on the BMI value: one decimal digit.  The
source rounds the nearest double half-to-even; we round the exact
rational half-up — the two agree except on exact midpoints of tenths,
and no claim depends on the printed digits (only on the substrings
"Underweight"/"Overweight" and the fact that the label is not one of
the status keywords). -/
def fmt1 (q : ℚ) : String :=
  let n : ℤ := round (10 * q)
  (if n < 0 then "-" else "") ++ toString (n.natAbs / 10) ++ "." ++ toString (n.natAbs % 10)

/-- BMI block, app.py lines 310–337: parsed height, weight, the derived
`bmi_value`, and the classification.  In Python `weight_kg /
(height_m * height_m)` raises `ZeroDivisionError` when the parsed
height is `0`; the surrounding `except` then sets
`height_cm = weight_kg = None` and `bmi_value` was never assigned, so
all three are absent — exactly as on a parse failure. -/
def evalBMI (rh rw : Raw ℚ) : Option ℚ × Option ℚ × Option ℚ × Classification :=
  match rh.parse, rw.parse with
  | some height_cm, some weight_kg =>
      if height_cm = 0 then
        (none, none, none, ⟨"Error", "Please enter valid height and weight."⟩)
      else
        let height_m := height_cm / 100
        let bmi_value := weight_kg / (height_m * height_m)
        if bmi_value < 18.5 then
          (some height_cm, some weight_kg, some bmi_value,
            ⟨fmt1 bmi_value ++ " (Underweight)",
             "BMI indicates underweight. A balanced nutritious diet is recommended."⟩)
        else if bmi_value > 24.9 then
          (some height_cm, some weight_kg, some bmi_value,
            ⟨fmt1 bmi_value ++ " (Overweight)",
             "BMI indicates overweight. Regular exercise and diet control are advised."⟩)
        else
          (some height_cm, some weight_kg, some bmi_value,
            ⟨fmt1 bmi_value ++ " (Normal)", "BMI is within normal limits."⟩)
  | _, _ => (none, none, none, ⟨"Error", "Please enter valid height and weight."⟩)

/-- Contiguous-sublist test on character lists. -/
def containsSeq (needle : List Char) : List Char → Bool
  | [] => needle.isEmpty
  | c :: t => List.isPrefixOf needle (c :: t) || containsSeq needle t

/-- Python's `needle in hay` on strings: substring containment. -/
def strContains (hay needle : String) : Bool :=
  containsSeq needle.toList hay.toList

/-- The abnormality test of the rollup loop, app.py lines 351–357. -/
def isAbnormalStatus (s : String) : Bool :=
  s.startsWith "High" || s.startsWith "Low" ||
    strContains s "Underweight" || strContains s "Overweight" || s == "Borderline"

/-- The error test of the rollup, app.py line 343. -/
def isErrorStatus (s : String) : Bool :=
  s == "Error" || s.startsWith "Error"

/-- Overall summary computed from the list of statuses, app.py lines
341–379.  The source counts abnormal statuses with a `for` loop;
`List.countP` is that count. -/
def rollup (statuses : List String) : Classification :=
  if statuses.any isErrorStatus then
    ⟨"Data Issue",
     "Some inputs were invalid. Please correct the highlighted fields and try again."⟩
  else
    let abnormal_count := statuses.countP (fun s => isAbnormalStatus s)
    if abnormal_count = 0 then
      ⟨"Stable / Normal",
       "All tracked parameters appear within normal ranges. Maintain your current lifestyle and regular check-ups."⟩
    else if abnormal_count = 1 then
      ⟨"Mild Concern",
       "One parameter needs attention. Monitor your health and consider lifestyle adjustments."⟩
    else if 2 ≤ abnormal_count ∧ abnormal_count ≤ 3 then
      ⟨"Needs Attention",
       "Multiple parameters are outside the normal range. A detailed check-up and lifestyle review are recommended."⟩
    else
      ⟨"High Risk",
       "Several parameters are abnormal. Please consult a doctor for a complete evaluation."⟩

/-- Everything the POST branch of `index` derives from the form before
the persistence step: the ordered `result` dict, the overall summary,
and the eight numeric locals (`None` modelled as `none`). -/
structure EvalOutcome where
  result : List (String × Classification)
  overall : Option Classification
  hb : Option ℚ
  sugar : Option ℚ
  bp_sys : Option ℤ
  bp_dia : Option ℤ
  chol : Option ℚ
  height_cm : Option ℚ
  weight_kg : Option ℚ
  bmi : Option ℚ
deriving DecidableEq

/-- The evaluation core of `index` (app.py lines 200–379): the five
metric blocks in source order, then the overall summary guarded by
`if result:`. -/
def evaluate (inp : MetricInput) : EvalOutcome :=
  let eHb := evalHemoglobin inp.hb
  let eSu := evalSugar inp.sugar
  let eBp := evalBP inp.bp_sys inp.bp_dia
  let eCh := evalCholesterol inp.chol
  let eBm := evalBMI inp.height inp.weight
  let result : List (String × Classification) :=
    [("Hemoglobin", eHb.2), ("Fasting Sugar", eSu.2), ("Blood Pressure", eBp.2.2),
     ("Cholesterol", eCh.2), ("BMI", eBm.2.2.2)]
  { result := result
    overall := if result.isEmpty then none
               else some (rollup (result.map (fun p => p.2.status)))
    hb := eHb.1
    sugar := eSu.1
    bp_sys := eBp.1
    bp_dia := eBp.2.1
    chol := eCh.1
    height_cm := eBm.1
    weight_kg := eBm.2.1
    bmi := eBm.2.2.1 }

/-- The statuses list built at app.py line 341. -/
def statusesOf (o : EvalOutcome) : List String :=
  o.result.map (fun p => p.2.status)

/-- One row of the `reports` table that `save_report` inserts (app.py
lines 76–101): the eight numeric fields plus the optional owner.  `id`
models the AUTOINCREMENT primary key, `user_id = none` models SQL
`NULL` (a guest row). -/
structure StoredReport where
  id : Nat
  hb : ℚ
  sugar : ℚ
  bp_sys : ℤ
  bp_dia : ℤ
  chol : ℚ
  height_cm : ℚ
  weight_kg : ℚ
  bmi : ℚ
  user_id : Option Nat
deriving DecidableEq

/-- Python truthiness of the session's `user_id` (`if user_id:`):
`None` and `0` are falsy.  Real user ids come from the sqlite
AUTOINCREMENT `users.id` column and are always ≥ 1. -/
def truthy : Option Nat → Bool
  | none => false
  | some n => n ≠ 0

/-- The test `all(v is not None for v in [hb, sugar, bp_sys, bp_dia,
chol, height_cm, weight_kg, bmi_value])` at app.py lines 382–385. -/
def eightSome (o : EvalOutcome) : Prop :=
  o.hb.isSome = true ∧ o.sugar.isSome = true ∧ o.bp_sys.isSome = true ∧
  o.bp_dia.isSome = true ∧ o.chol.isSome = true ∧ o.height_cm.isSome = true ∧
  o.weight_kg.isSome = true ∧ o.bmi.isSome = true

instance (o : EvalOutcome) : Decidable (eightSome o) := by
  unfold eightSome; infer_instance

/-- The persistence gate at app.py lines 381–397: `save_report` is
called only when all eight locals are not `None`; the insert appends a
row whose id the database autoincrements (modelled as `db.length + 1`). -/
def postSave (db : List StoredReport) (inp : MetricInput) (uid : Option Nat) :
    List StoredReport :=
  let o := evaluate inp
  if h : eightSome o then
    db ++ [⟨db.length + 1, o.hb.get h.1, o.sugar.get h.2.1, o.bp_sys.get h.2.2.1,
            o.bp_dia.get h.2.2.2.1, o.chol.get h.2.2.2.2.1,
            o.height_cm.get h.2.2.2.2.2.1, o.weight_kg.get h.2.2.2.2.2.2.1,
            o.bmi.get h.2.2.2.2.2.2.2, uid⟩]
  else db

/-- Successful parse of every raw field, with the one extra case in
which the eight locals can still be incomplete: a parsed height of `0`
(the division then raises and the BMI block ends in its `except`). -/
def allParsed (inp : MetricInput) : Prop :=
  inp.hb.parse.isSome = true ∧ inp.sugar.parse.isSome = true ∧
  inp.bp_sys.parse.isSome = true ∧ inp.bp_dia.parse.isSome = true ∧
  inp.chol.parse.isSome = true ∧ inp.height.parse.isSome = true ∧
  inp.weight.parse.isSome = true ∧ inp.height.parse ≠ some 0

instance (inp : MetricInput) : Decidable (allParsed inp) := by
  unfold allParsed; infer_instance

/-- HTTP method of a request to `/`. -/
inductive Method where
  | get : Method
  | post : Method
deriving DecidableEq

/-- The `index` route (app.py lines 192–405) restricted to what it
shows: on GET, `result = {}` and `overall_summary = None`; on POST the
form is evaluated. -/
def indexView (m : Method) (inp : MetricInput) :
    List (String × Classification) × Option Classification :=
  match m with
  | .get => ([], none)
  | .post => ((evaluate inp).result, (evaluate inp).overall)

/-- The full POST handling of `index`: the rendered evaluation and the
updated store. -/
def indexPost (db : List StoredReport) (uid : Option Nat) (inp : MetricInput) :
    EvalOutcome × List StoredReport :=
  (evaluate inp, postSave db inp uid)

/-- `/clear_history` (app.py lines 511–525): logged in deletes
`WHERE user_id = ?`; guest deletes every row.  SQL `user_id = ?` does
not match `NULL` rows, hence the `some`-comparison. -/
def clear_history (db : List StoredReport) (uid : Option Nat) : List StoredReport :=
  if truthy uid then db.filter (fun r => ¬ r.user_id = uid)
  else []

/-- `/delete/<report_id>` (app.py lines 529–545): logged in deletes
`WHERE id = ? AND user_id = ?`; guest deletes `WHERE id = ?`. -/
def delete_report (db : List StoredReport) (uid : Option Nat) (report_id : Nat) :
    List StoredReport :=
  if truthy uid then db.filter (fun r => ¬ (r.id = report_id ∧ r.user_id = uid))
  else db.filter (fun r => ¬ r.id = report_id)

/-- Reference rollup of the specification, stated over a bare list of
statuses: Error precedence first, then the abnormal count mapped
0 ↦ Stable / Normal, 1 ↦ Mild Concern, 2–3 ↦ Needs Attention,
≥ 4 ↦ High Risk.  A status counts as abnormal exactly when it begins
with "High" or "Low", contains "Underweight" or "Overweight", or
equals "Borderline". -/
def refOverallStatus (ss : List String) : String :=
  if ss.any isErrorStatus then "Data Issue"
  else
    let n := ss.countP (fun s => isAbnormalStatus s)
    if n = 0 then "Stable / Normal"
    else if n = 1 then "Mild Concern"
    else if n ≤ 3 then "Needs Attention"
    else "High Risk"

/-- Status label shown for a named metric: lookup in the `result`
dict. -/
def statusIn (o : EvalOutcome) (name : String) : Option String :=
  (o.result.find? (fun p => p.1 == name)).map (fun p => p.2.status)

/-- An empty form submission: every field missing. -/
def inpAllMissing : MetricInput :=
  ⟨.missing, .missing, .missing, .missing, .missing, .missing, .missing⟩

/-- The all-normal example of the specification: hb 14, sugar 100,
bp 120/80, chol 180, height 170, weight 65. -/
def inpAllNormal : MetricInput :=
  ⟨.val 14, .val 100, .val 120, .val 80, .val 180, .val 170, .val 65⟩

/-- Same as `inpAllNormal` except the sugar field is malformed. -/
def inpBadSugar : MetricInput :=
  ⟨.val 14, .malformed, .val 120, .val 80, .val 180, .val 170, .val 65⟩

/-- Same as `inpAllNormal` except the height parses to `0`. -/
def inpZeroHeight : MetricInput :=
  ⟨.val 14, .val 100, .val 120, .val 80, .val 180, .val 0, .val 65⟩

/-- Two stored rows owned by user 1, one by user 2, one guest row. -/
def sampleDb : List StoredReport :=
  [⟨1, 14, 100, 120, 80, 180, 170, 65, 225/10, some 1⟩,
   ⟨2, 13, 90, 118, 76, 190, 165, 60, 22, some 2⟩,
   ⟨3, 15, 95, 122, 82, 185, 180, 80, 247/10, none⟩,
   ⟨4, 14, 99, 119, 79, 170, 170, 68, 235/10, some 1⟩]

end HealthAnalyzer

namespace HealthAnalyzer

/-! ## Helper lemmas -/

theorem any_perm_congr {α : Type} {p : α → Bool} {l₁ l₂ : List α} (h : l₁.Perm l₂) :
    l₁.any p = l₂.any p := by
  cases hb : l₂.any p
  · rw [Bool.eq_false_iff]
    intro hc
    rcases List.any_eq_true.1 hc with ⟨x, hx, hpx⟩
    have : l₂.any p = true := List.any_eq_true.2 ⟨x, h.mem_iff.1 hx, hpx⟩
    rw [this] at hb
    exact Bool.noConfusion hb
  · rcases List.any_eq_true.1 hb with ⟨x, hx, hpx⟩
    exact List.any_eq_true.2 ⟨x, h.mem_iff.2 hx, hpx⟩

theorem refOverallStatus_perm {l₁ l₂ : List String} (h : l₁.Perm l₂) :
    refOverallStatus l₁ = refOverallStatus l₂ := by
  unfold refOverallStatus
  rw [any_perm_congr h, h.countP_eq]

theorem rollup_status_eq (l : List String) : (rollup l).status = refOverallStatus l := by
  unfold rollup refOverallStatus
  dsimp only
  split_ifs <;> first | rfl | omega

theorem evalHemoglobin_val (r : Raw ℚ) : (evalHemoglobin r).1 = r.parse := by
  unfold evalHemoglobin
  cases hp : r.parse with
  | none => rfl
  | some v => dsimp only; split_ifs <;> rfl

theorem evalSugar_val (r : Raw ℚ) : (evalSugar r).1 = r.parse := by
  unfold evalSugar
  cases hp : r.parse with
  | none => rfl
  | some v => dsimp only; split_ifs <;> rfl

theorem evalCholesterol_val (r : Raw ℚ) : (evalCholesterol r).1 = r.parse := by
  unfold evalCholesterol
  cases hp : r.parse with
  | none => rfl
  | some v => dsimp only; split_ifs <;> rfl

theorem evalBP_vals (rs rd : Raw ℤ) :
    ((evalBP rs rd).1.isSome = true ↔ rs.parse.isSome = true ∧ rd.parse.isSome = true) ∧
    ((evalBP rs rd).2.1.isSome = true ↔ rs.parse.isSome = true ∧ rd.parse.isSome = true) := by
  unfold evalBP
  rcases hs : rs.parse with _ | s
  · rcases hd : rd.parse with _ | d <;> simp
  · rcases hd : rd.parse with _ | d
    · simp
    · dsimp only
      split_ifs <;> simp

theorem evalBMI_vals (rh rw : Raw ℚ) :
    ((evalBMI rh rw).1.isSome = true ↔
      rh.parse.isSome = true ∧ rw.parse.isSome = true ∧ rh.parse ≠ some 0) ∧
    ((evalBMI rh rw).2.1.isSome = true ↔
      rh.parse.isSome = true ∧ rw.parse.isSome = true ∧ rh.parse ≠ some 0) ∧
    ((evalBMI rh rw).2.2.1.isSome = true ↔
      rh.parse.isSome = true ∧ rw.parse.isSome = true ∧ rh.parse ≠ some 0) := by
  unfold evalBMI
  rcases hh : rh.parse with _ | h
  · rcases hw : rw.parse with _ | w <;> simp
  · rcases hw : rw.parse with _ | w
    · simp
    · dsimp only
      split_ifs <;> simp_all

theorem evaluate_overall (inp : MetricInput) :
    (evaluate inp).overall = some (rollup (statusesOf (evaluate inp))) := rfl

theorem evaluate_hb (inp : MetricInput) : (evaluate inp).hb = inp.hb.parse :=
  evalHemoglobin_val inp.hb

theorem evaluate_sugar (inp : MetricInput) : (evaluate inp).sugar = inp.sugar.parse :=
  evalSugar_val inp.sugar

theorem evaluate_chol (inp : MetricInput) : (evaluate inp).chol = inp.chol.parse :=
  evalCholesterol_val inp.chol

theorem evaluate_bp_sys_isSome (inp : MetricInput) :
    (evaluate inp).bp_sys.isSome = true ↔
      inp.bp_sys.parse.isSome = true ∧ inp.bp_dia.parse.isSome = true :=
  (evalBP_vals inp.bp_sys inp.bp_dia).1

theorem evaluate_bp_dia_isSome (inp : MetricInput) :
    (evaluate inp).bp_dia.isSome = true ↔
      inp.bp_sys.parse.isSome = true ∧ inp.bp_dia.parse.isSome = true :=
  (evalBP_vals inp.bp_sys inp.bp_dia).2

theorem evaluate_height_isSome (inp : MetricInput) :
    (evaluate inp).height_cm.isSome = true ↔
      inp.height.parse.isSome = true ∧ inp.weight.parse.isSome = true ∧
        inp.height.parse ≠ some 0 :=
  (evalBMI_vals inp.height inp.weight).1

theorem evaluate_weight_isSome (inp : MetricInput) :
    (evaluate inp).weight_kg.isSome = true ↔
      inp.height.parse.isSome = true ∧ inp.weight.parse.isSome = true ∧
        inp.height.parse ≠ some 0 :=
  (evalBMI_vals inp.height inp.weight).2.1

theorem evaluate_bmi_isSome (inp : MetricInput) :
    (evaluate inp).bmi.isSome = true ↔
      inp.height.parse.isSome = true ∧ inp.weight.parse.isSome = true ∧
        inp.height.parse ≠ some 0 :=
  (evalBMI_vals inp.height inp.weight).2.2

theorem statusIn_hb (inp : MetricInput) :
    statusIn (evaluate inp) "Hemoglobin" = some (evalHemoglobin inp.hb).2.status := rfl

theorem statusIn_sugar (inp : MetricInput) :
    statusIn (evaluate inp) "Fasting Sugar" = some (evalSugar inp.sugar).2.status := rfl

theorem statusIn_bp (inp : MetricInput) :
    statusIn (evaluate inp) "Blood Pressure" =
      some (evalBP inp.bp_sys inp.bp_dia).2.2.status := rfl

theorem statusIn_chol (inp : MetricInput) :
    statusIn (evaluate inp) "Cholesterol" = some (evalCholesterol inp.chol).2.status := rfl

theorem statusIn_bmi (inp : MetricInput) :
    statusIn (evaluate inp) "BMI" = some (evalBMI inp.height inp.weight).2.2.2.status := rfl

theorem count_filter_split {α : Type} [DecidableEq α] (p : α → Bool) (l : List α) (a : α) :
    (l.filter p).count a = if p a = true then l.count a else 0 := by
  split_ifs with hp
  · exact List.count_filter hp
  · rw [List.count_eq_zero]
    intro hmem
    rw [List.mem_filter] at hmem
    rw [hmem.2] at hp
    exact hp rfl

/-! ## Claim theorems -/

/-- C1: for every evaluation producing at least one classification,
the overall summary status equals the reference rollup of the
specification, and it does so for any ordering of the produced
statuses (order independence). -/
theorem C1_overall_rollup (inp : MetricInput) (ss : List String)
    (_hres : (evaluate inp).result ≠ [])
    (hperm : (statusesOf (evaluate inp)).Perm ss) :
    Option.map Classification.status (evaluate inp).overall = some (refOverallStatus ss) := by
  rw [evaluate_overall inp, Option.map_some', rollup_status_eq,
    refOverallStatus_perm hperm]

/-- C1 witness: the empty submission produces five "Error"
classifications and the reference rollup agrees on the overall status. -/
theorem C1_overall_rollup_witness :
    Option.map Classification.status (evaluate inpAllMissing).overall =
      some (refOverallStatus ["Error", "Error", "Error", "Error", "Error"]) :=
  C1_overall_rollup inpAllMissing _ (by decide) (by decide)

/-- C2: a report row is appended exactly when all eight derived
numeric values are non-absent; that condition holds exactly when all
seven raw fields parse and the parsed height is not zero; and when it
fails, storage is left unchanged. -/
theorem C2_all_or_nothing (db : List StoredReport) (inp : MetricInput) (uid : Option Nat) :
    ((∃ r, postSave db inp uid = db ++ [r]) ↔ eightSome (evaluate inp)) ∧
    (eightSome (evaluate inp) ↔ allParsed inp) ∧
    (¬ allParsed inp → postSave db inp uid = db) := by
  have hkey : eightSome (evaluate inp) ↔ allParsed inp := by
    unfold eightSome allParsed
    rw [evaluate_hb, evaluate_sugar, evaluate_chol, evaluate_bp_sys_isSome,
      evaluate_bp_dia_isSome, evaluate_height_isSome, evaluate_weight_isSome,
      evaluate_bmi_isSome]
    tauto
  refine ⟨⟨?_, ?_⟩, hkey, ?_⟩
  · rintro ⟨r, hr⟩
    by_contra hno
    simp only [postSave] at hr
    rw [dif_neg hno] at hr
    have := congrArg List.length hr
    simp at this
  · intro h8
    refine ⟨⟨db.length + 1, (evaluate inp).hb.get h8.1, (evaluate inp).sugar.get h8.2.1,
      (evaluate inp).bp_sys.get h8.2.2.1, (evaluate inp).bp_dia.get h8.2.2.2.1,
      (evaluate inp).chol.get h8.2.2.2.2.1, (evaluate inp).height_cm.get h8.2.2.2.2.2.1,
      (evaluate inp).weight_kg.get h8.2.2.2.2.2.2.1,
      (evaluate inp).bmi.get h8.2.2.2.2.2.2.2, uid⟩, ?_⟩
    simp only [postSave]
    rw [dif_pos h8]
  · intro hnp
    have h8 : ¬ eightSome (evaluate inp) := fun h => hnp (hkey.mp h)
    simp only [postSave]
    rw [dif_neg h8]

/-- C2 witness: a submission whose sugar field is malformed leaves the
(empty) store unchanged. -/
theorem C2_all_or_nothing_witness : postSave [] inpBadSugar none = [] :=
  (C2_all_or_nothing [] inpBadSugar none).2.2 (by decide)

/-- C3 counterexample: the claim says cholesterol exactly 240
classifies as "Normal", but the source's `elif chol > 200` branch
fires (240 > 200), so the status is "Borderline", not "Normal". -/
theorem C3_chol240_claim_false :
    (evalCholesterol (Raw.val 240)).2.status = "Borderline" ∧
    ¬ (evalCholesterol (Raw.val 240)).2.status = "Normal" := by
  decide

/-- C3 (amended): for the cholesterol input exactly equal to 240, the
classification status is "Borderline" (not "High", since the High rule
is strictly greater than 240). -/
theorem C3_chol240_amended :
    (evalCholesterol (Raw.val 240)).2.status = "Borderline" ∧
    ¬ (evalCholesterol (Raw.val 240)).2.status = "High" := by
  decide

/-- C4: for every numeric cholesterol value c, c > 240 classifies as
"High"; 200 < c ≤ 240 as "Borderline"; c ≤ 200 as "Normal". -/
theorem C4_cholesterol_thresholds (c : ℚ) :
    (c > 240 → (evalCholesterol (Raw.val c)).2.status = "High") ∧
    (c > 200 → c ≤ 240 → (evalCholesterol (Raw.val c)).2.status = "Borderline") ∧
    (c ≤ 200 → (evalCholesterol (Raw.val c)).2.status = "Normal") := by
  unfold evalCholesterol
  refine ⟨fun h1 => ?_, fun h2 h3 => ?_, fun h4 => ?_⟩ <;>
    simp only [Raw.parse] <;> split_ifs <;> first | rfl | linarith

/-- C4 witness: 241 is High, 201 is Borderline, 200 is Normal. -/
theorem C4_cholesterol_thresholds_witness :
    (evalCholesterol (Raw.val 241)).2.status = "High" ∧
    (evalCholesterol (Raw.val 201)).2.status = "Borderline" ∧
    (evalCholesterol (Raw.val 200)).2.status = "Normal" :=
  ⟨(C4_cholesterol_thresholds 241).1 (by norm_num),
   (C4_cholesterol_thresholds 201).2.1 (by norm_num) (by norm_num),
   (C4_cholesterol_thresholds 200).2.2 (by norm_num)⟩

/-- C5: for every integer pair, sys < 90 or dia < 60 classifies as
"Low" and this branch is checked first, so it wins even when the High
condition also holds; otherwise sys > 140 or dia > 90 classifies as
"High"; otherwise "Normal". -/
theorem C5_bp_thresholds (sys dia : ℤ) :
    ((sys < 90 ∨ dia < 60) →
      (evalBP (Raw.val sys) (Raw.val dia)).2.2.status = "Low") ∧
    (¬ (sys < 90 ∨ dia < 60) → (sys > 140 ∨ dia > 90) →
      (evalBP (Raw.val sys) (Raw.val dia)).2.2.status = "High") ∧
    (90 ≤ sys → 60 ≤ dia → sys ≤ 140 → dia ≤ 90 →
      (evalBP (Raw.val sys) (Raw.val dia)).2.2.status = "Normal") := by
  unfold evalBP
  refine ⟨fun h1 => ?_, fun h2 h3 => ?_, fun h4 h5 h6 h7 => ?_⟩ <;>
    simp only [Raw.parse] <;> split_ifs <;> first | rfl | tauto | omega

/-- C6: evaluation is total and well-formed for every input
combination — the five metrics always appear, in source order, and the
overall summary is always produced; a field that fails to parse
degrades to that metric's "Error" classification; and each metric's
classification depends only on its own raw fields, so a failure in one
metric cannot affect the others. -/
theorem C6_total_error_isolation (inp : MetricInput) :
    (evaluate inp).result.map Prod.fst =
      ["Hemoglobin", "Fasting Sugar", "Blood Pressure", "Cholesterol", "BMI"] ∧
    (evaluate inp).overall.isSome = true ∧
    (inp.hb.parse = none → statusIn (evaluate inp) "Hemoglobin" = some "Error") ∧
    (inp.sugar.parse = none → statusIn (evaluate inp) "Fasting Sugar" = some "Error") ∧
    (inp.bp_sys.parse = none ∨ inp.bp_dia.parse = none →
      statusIn (evaluate inp) "Blood Pressure" = some "Error") ∧
    (inp.chol.parse = none → statusIn (evaluate inp) "Cholesterol" = some "Error") ∧
    (inp.height.parse = none ∨ inp.weight.parse = none →
      statusIn (evaluate inp) "BMI" = some "Error") ∧
    (∀ inp₂ : MetricInput, inp₂.hb = inp.hb →
      statusIn (evaluate inp₂) "Hemoglobin" = statusIn (evaluate inp) "Hemoglobin") ∧
    (∀ inp₂ : MetricInput, inp₂.sugar = inp.sugar →
      statusIn (evaluate inp₂) "Fasting Sugar" = statusIn (evaluate inp) "Fasting Sugar") ∧
    (∀ inp₂ : MetricInput, inp₂.bp_sys = inp.bp_sys → inp₂.bp_dia = inp.bp_dia →
      statusIn (evaluate inp₂) "Blood Pressure" = statusIn (evaluate inp) "Blood Pressure") ∧
    (∀ inp₂ : MetricInput, inp₂.chol = inp.chol →
      statusIn (evaluate inp₂) "Cholesterol" = statusIn (evaluate inp) "Cholesterol") ∧
    (∀ inp₂ : MetricInput, inp₂.height = inp.height → inp₂.weight = inp.weight →
      statusIn (evaluate inp₂) "BMI" = statusIn (evaluate inp) "BMI") := by
  refine ⟨rfl, rfl, ?_, ?_, ?_, ?_, ?_, ?_, ?_, ?_, ?_, ?_⟩
  · intro h
    rw [statusIn_hb]
    simp [evalHemoglobin, h]
  · intro h
    rw [statusIn_sugar]
    simp [evalSugar, h]
  · intro h
    rw [statusIn_bp]
    rcases h with h | h
    · rcases hd : inp.bp_dia.parse with _ | d <;> simp [evalBP, h, hd]
    · rcases hs : inp.bp_sys.parse with _ | s <;> simp [evalBP, h, hs]
  · intro h
    rw [statusIn_chol]
    simp [evalCholesterol, h]
  · intro h
    rw [statusIn_bmi]
    rcases h with h | h
    · rcases hw : inp.weight.parse with _ | w <;> simp [evalBMI, h, hw]
    · rcases hh : inp.height.parse with _ | v <;> simp [evalBMI, h, hh]
  · intro inp₂ h
    rw [statusIn_hb, statusIn_hb, h]
  · intro inp₂ h
    rw [statusIn_sugar, statusIn_sugar, h]
  · intro inp₂ h1 h2
    rw [statusIn_bp, statusIn_bp, h1, h2]
  · intro inp₂ h
    rw [statusIn_chol, statusIn_chol, h]
  · intro inp₂ h1 h2
    rw [statusIn_bmi, statusIn_bmi, h1, h2]

/-- C6 witness: on the empty submission, the BMI metric (whose height
field is missing) is classified "Error". -/
theorem C6_total_error_isolation_witness :
    statusIn (evaluate inpAllMissing) "BMI" = some "Error" :=
  (C6_total_error_isolation inpAllMissing).2.2.2.2.2.2.1 (Or.inl rfl)

/-- C7: the evaluation shown to the user is a pure function of the
raw input — it does not depend on the stored history or on the session
identity, and evaluating the same input again (even after the first
evaluation has updated the store) yields a bit-identical outcome. -/
theorem C7_pure_deterministic (db₁ db₂ : List StoredReport) (uid₁ uid₂ : Option Nat)
    (inp : MetricInput) :
    (indexPost db₁ uid₁ inp).1 = (indexPost db₂ uid₂ inp).1 ∧
    (indexPost (indexPost db₁ uid₁ inp).2 uid₁ inp).1 = (indexPost db₁ uid₁ inp).1 :=
  ⟨rfl, rfl⟩

/-- C8: the overall summary is present exactly when at least one
classification was produced, and it is absent only on a GET request,
i.e. when no form was submitted at all. -/
theorem C8_overall_present_iff (m : Method) (inp : MetricInput) :
    ((indexView m inp).2.isSome = true ↔ (indexView m inp).1 ≠ []) ∧
    ((indexView m inp).2 = none → m = Method.get) := by
  cases m
  · exact ⟨by simp [indexView], fun _ => rfl⟩
  · constructor
    · constructor
      · intro _ hnil
        have h5 : (indexView Method.post inp).1.length = 5 := rfl
        rw [hnil] at h5
        exact absurd h5 (by decide)
      · intro _
        rfl
    · intro hnone
      exact Option.noConfusion hnone

/-- C8 witness: a POST of the empty form still yields an overall
summary (its `result` has five classifications, hence is nonempty). -/
theorem C8_overall_present_iff_witness :
    (indexView Method.post inpAllMissing).2.isSome = true :=
  (C8_overall_present_iff Method.post inpAllMissing).1.mpr (by decide)

/-- C9: deletion is owner-scoped with a global guest fallback.  For a
logged-in owner, clear-all removes exactly that owner's rows (every
other row keeps its multiplicity) and delete-one removes a row only
when both its id and its owner match; for a guest, clear-all empties
the store and delete-one removes the row with the given id regardless
of owner. -/
theorem C9_deletion_scoping (db : List StoredReport) (report_id : Nat) (u : Nat)
    (hu : u ≠ 0) :
    (∀ r : StoredReport, (clear_history db (some u)).count r =
        if r.user_id = some u then 0 else db.count r) ∧
    (∀ r : StoredReport, (delete_report db (some u) report_id).count r =
        if r.id = report_id ∧ r.user_id = some u then 0 else db.count r) ∧
    clear_history db none = [] ∧
    (∀ r : StoredReport, (delete_report db none report_id).count r =
        if r.id = report_id then 0 else db.count r) := by
  have htu : truthy (some u) = true := by simp [truthy, hu]
  refine ⟨fun r => ?_, fun r => ?_, rfl, fun r => ?_⟩
  · unfold clear_history
    rw [if_pos htu, count_filter_split]
    by_cases h : r.user_id = some u <;> simp [h]
  · unfold delete_report
    rw [if_pos htu, count_filter_split]
    by_cases h : r.id = report_id ∧ r.user_id = some u <;> simp [h]
  · unfold delete_report
    rw [if_neg (fun hc => Bool.noConfusion hc : ¬ truthy none = true), count_filter_split]
    by_cases h : r.id = report_id <;> simp [h]

/-- C9 witness: a guest clear-all empties the sample store. -/
theorem C9_deletion_scoping_witness : clear_history sampleDb none = [] :=
  (C9_deletion_scoping sampleDb 1 1 (by decide)).2.2.1

/-- C10: when the height field parses to exactly 0 (and the weight
parses), the BMI classification is "Error" rather than a crash, the
height/weight/bmi values are all treated as absent, and consequently
no report is persisted. -/
theorem C10_zero_height (inp : MetricInput) (w : ℚ)
    (hh : inp.height.parse = some 0) (hw : inp.weight.parse = some w) :
    statusIn (evaluate inp) "BMI" = some "Error" ∧
    (evaluate inp).height_cm = none ∧
    (evaluate inp).weight_kg = none ∧
    (evaluate inp).bmi = none ∧
    ∀ db uid, postSave db inp uid = db := by
  have hbmi : evalBMI inp.height inp.weight =
      (none, none, none, ⟨"Error", "Please enter valid height and weight."⟩) := by
    unfold evalBMI
    rw [hh, hw]
    simp
  have hheight : (evaluate inp).height_cm = none := by
    show (evalBMI inp.height inp.weight).1 = none
    rw [hbmi]
  refine ⟨?_, hheight, ?_, ?_, ?_⟩
  · rw [statusIn_bmi, hbmi]
  · show (evalBMI inp.height inp.weight).2.1 = none
    rw [hbmi]
  · show (evalBMI inp.height inp.weight).2.2.1 = none
    rw [hbmi]
  · intro db uid
    have h8 : ¬ eightSome (evaluate inp) := by
      intro h
      have h6 : (evaluate inp).height_cm.isSome = true := h.2.2.2.2.2.1
      rw [hheight] at h6
      exact Bool.noConfusion h6
    simp only [postSave]
    rw [dif_neg h8]

/-- C10 witness: the concrete zero-height submission. -/
theorem C10_zero_height_witness :
    statusIn (evaluate inpZeroHeight) "BMI" = some "Error" :=
  (C10_zero_height inpZeroHeight 65 rfl rfl).1

/-- C5 witness: sys=200, dia=50 is Low (not High); the boundary pairs
90/60 and 140/90 are Normal. -/
theorem C5_bp_thresholds_witness :
    (evalBP (Raw.val 200) (Raw.val 50)).2.2.status = "Low" ∧
    (evalBP (Raw.val 90) (Raw.val 60)).2.2.status = "Normal" ∧
    (evalBP (Raw.val 140) (Raw.val 90)).2.2.status = "Normal" :=
  ⟨(C5_bp_thresholds 200 50).1 (Or.inr (by norm_num)),
   (C5_bp_thresholds 90 60).2.2 (by norm_num) (by norm_num) (by norm_num) (by norm_num),
   (C5_bp_thresholds 140 90).2.2 (by norm_num) (by norm_num) (by norm_num) (by norm_num)⟩

end HealthAnalyzer
